import Mathlib

/-!
Shallow embedding of `ballooning.py`, an interactive balloon-marker
annotation tool.  Pure geometry (balloon circle centre and tail triangle)
is embedded over `ℝ`; the marker-list state machine (add / undo / redo /
clear / zoom) over exact rationals; the two export pipelines (vector PDF
and supersampled raster) as functions producing draw commands and image
dimensions.
-/

set_option autoImplicit false

namespace Ballooning

/-- Python's `int()` applied to a real number: truncation toward zero. -/
noncomputable def pyInt (x : ℝ) : ℤ :=
  if 0 ≤ x then ⌊x⌋ else ⌈x⌉

/-- Python's `int()` applied to an exact rational: truncation toward zero. -/
def pyIntQ (x : ℚ) : ℤ :=
  if 0 ≤ x then ⌊x⌋ else ⌈x⌉

/-- Embedding of `math.radians`: degrees to radians. -/
noncomputable def radians (d : ℝ) : ℝ :=
  d * Real.pi / 180

/-- The five geometric outputs of one balloon: circle centre `(cx, cy)`,
and the tail-triangle vertices `tip`, `base1`, `base2`. -/
structure BalloonGeom where
  cx : ℝ
  cy : ℝ
  tip : ℝ × ℝ
  base1 : ℝ × ℝ
  base2 : ℝ × ℝ

/-- Geometry computed by `Canvas._draw_single_balloon` (screen painting):
`tail_len = int(r * 1.2)` (note the truncation), centre at
`tip - dir * (tail_len + r)`, tail half-width `r * 0.5`, perpendicular
`(-dy, dx)`. -/
noncomputable def drawSingleBalloonGeom (tip_x tip_y angle_deg r : ℝ) : BalloonGeom :=
  let tail_len : ℝ := (pyInt (r * 1.2) : ℝ)
  let theta := radians angle_deg
  let dx := Real.cos theta
  let dy := Real.sin theta
  let cx := tip_x - dx * (tail_len + r)
  let cy := tip_y - dy * (tail_len + r)
  let tail_width_offset := r * 0.5
  let pdx := -dy
  let pdy := dx
  { cx := cx
    cy := cy
    tip := (tip_x, tip_y)
    base1 := (cx + pdx * tail_width_offset, cy + pdy * tail_width_offset)
    base2 := (cx - pdx * tail_width_offset, cy - pdy * tail_width_offset) }

/-- Geometry computed by `MainWindow._save_pdf_vector` for one marker whose
tip is already placed: `tail_len = r * 1.2` (no truncation), centre at
`tip - dir * (tail_len + r)`, tail half-width `r * 0.5`. -/
noncomputable def pdfBalloonGeom (tip_x tip_y angle_deg r : ℝ) : BalloonGeom :=
  let tail_len : ℝ := r * 1.2
  let theta := radians angle_deg
  let dx := Real.cos theta
  let dy := Real.sin theta
  let cx := tip_x - dx * (tail_len + r)
  let cy := tip_y - dy * (tail_len + r)
  let pdx := -dy
  let pdy := dx
  let tail_w := r * 0.5
  { cx := cx
    cy := cy
    tip := (tip_x, tip_y)
    base1 := (cx + pdx * tail_w, cy + pdy * tail_w)
    base2 := (cx - pdx * tail_w, cy - pdy * tail_w) }

/-- Per-marker geometry of the PDF export path: the tip is the relative
position scaled by the page size, then `pdfBalloonGeom`. -/
noncomputable def pdfMarkerGeom (rx ry angle_deg page_w page_h r : ℝ) : BalloonGeom :=
  pdfBalloonGeom (rx * page_w) (ry * page_h) angle_deg r

/-- Geometry computed by `MainWindow._pil_draw_balloon` (raster export):
tip at `(rx * w, ry * h)`, `tail_len = int(r * 1.2)` (truncated), the rest
as in the other two paths. -/
noncomputable def pilDrawBalloonGeom (rx ry angle_deg w h r : ℝ) : BalloonGeom :=
  let tip_x := rx * w
  let tip_y := ry * h
  let tail_len : ℝ := (pyInt (r * 1.2) : ℝ)
  let theta := radians angle_deg
  let dx := Real.cos theta
  let dy := Real.sin theta
  let cx := tip_x - dx * (tail_len + r)
  let cy := tip_y - dy * (tail_len + r)
  let pdx := -dy
  let pdy := dx
  let tail_w := r * 0.5
  { cx := cx
    cy := cy
    tip := (tip_x, tip_y)
    base1 := (cx + pdx * tail_w, cy + pdy * tail_w)
    base2 := (cx - pdx * tail_w, cy - pdy * tail_w) }

/-- One marker tuple `(rel_x, rel_y, num, angle)` as stored in
`MainWindow.markers`: relative position as exact fractions, 1-based
number, compass angle in degrees. -/
structure Marker where
  rx : ℚ
  ry : ℚ
  num : ℕ
  angle : ℤ
deriving DecidableEq

/-- The marker-related state of `MainWindow`: source path, marker list,
redo stack (`undone_markers`), zoom level, marker-size spinbox value, and
the current compass rotation. -/
structure AppState where
  sourcePath : Option String
  markers : List Marker
  undone : List Marker
  zoomLevel : ℚ
  spinSize : ℕ
  currentRotation : ℤ
deriving DecidableEq

/-- Initial state: no file open, empty marker list and redo stack,
zoom 100%, spinbox 20, rotation 0 (pointing right). -/
def initState : AppState :=
  { sourcePath := none
    markers := []
    undone := []
    zoomLevel := 1
    spinSize := 20
    currentRotation := 0 }

/-- `MainWindow.add_marker`: append a marker numbered `len(markers) + 1`
carrying the current rotation, and clear the redo stack. -/
def add_marker (s : AppState) (rx ry : ℚ) : AppState :=
  { s with
    markers := s.markers ++ [⟨rx, ry, s.markers.length + 1, s.currentRotation⟩]
    undone := [] }

/-- `MainWindow.undo_marker`: if the marker list is non-empty, pop its last
element and push it onto the redo stack. -/
def undo_marker (s : AppState) : AppState :=
  match s.markers.getLast? with
  | none => s
  | some m => { s with markers := s.markers.dropLast, undone := s.undone ++ [m] }

/-- `MainWindow.redo_marker`: if the redo stack is non-empty, pop its last
element and append it back to the marker list. -/
def redo_marker (s : AppState) : AppState :=
  match s.undone.getLast? with
  | none => s
  | some m => { s with markers := s.markers ++ [m], undone := s.undone.dropLast }

/-- `MainWindow.clear_all_markers`: empty both lists. -/
def clear_all_markers (s : AppState) : AppState :=
  { s with markers := [], undone := [] }

/-- `MainWindow.update_view_request`: re-renders the canvas pixmap at the
current zoom; it reads but never writes the marker state. -/
def update_view_request (s : AppState) : AppState :=
  s

/-- `MainWindow.zoom_in`: raise the zoom level by 0.1 and refresh. -/
def zoom_in (s : AppState) : AppState :=
  update_view_request { s with zoomLevel := s.zoomLevel + 1/10 }

/-- `MainWindow.zoom_out`: lower the zoom level by 0.1 when above 0.1. -/
def zoom_out (s : AppState) : AppState :=
  if 1/10 < s.zoomLevel then
    update_view_request { s with zoomLevel := s.zoomLevel - 1/10 }
  else
    s

/-- Changing the marker-size spinbox: the `QSpinBox` clamps to `[10, 100]`
and its `valueChanged` signal triggers `update_view_request`. -/
def set_size (s : AppState) (n : ℕ) : AppState :=
  update_view_request { s with spinSize := min 100 (max 10 n) }

/-- `MainWindow.set_rotation`: record the compass angle for future markers. -/
def set_rotation (s : AppState) (a : ℤ) : AppState :=
  { s with currentRotation := a }

/-- The user operations driving the marker state. -/
inductive Op where
  | add (rx ry : ℚ)
  | undo
  | redo
  | clear
  | zoomIn
  | zoomOut
  | updateView
  | setSize (n : ℕ)
  | setRotation (a : ℤ)
deriving DecidableEq

/-- One step of the user-operation state machine. -/
def step (s : AppState) : Op → AppState
  | .add rx ry => add_marker s rx ry
  | .undo => undo_marker s
  | .redo => redo_marker s
  | .clear => clear_all_markers s
  | .zoomIn => zoom_in s
  | .zoomOut => zoom_out s
  | .updateView => update_view_request s
  | .setSize n => set_size s n
  | .setRotation a => set_rotation s a

/-- Run a sequence of operations from the initial (empty) state. -/
def runOps (ops : List Op) : AppState :=
  ops.foldl step initState

/-- View-only operations: zoom in/out, view refresh, marker-size change. -/
def isViewOp : Op → Bool
  | .zoomIn => true
  | .zoomOut => true
  | .updateView => true
  | .setSize _ => true
  | _ => false

/-- `Canvas.mousePressEvent`: a left click at image-relative pixel `(x, y)`
is forwarded (as a marker request) exactly when it lies inside the
displayed image rectangle of size `w × h`. -/
def mousePressAccept (x y w h : ℤ) : Option (ℤ × ℤ) :=
  if 0 ≤ x ∧ x < w ∧ 0 ≤ y ∧ y < h then some (x, y) else none

/-- Relative position computed by `MainWindow.add_marker` from an accepted
click: `(x / view_w, y / view_h)` in exact arithmetic. -/
def relPos (x y w h : ℤ) : ℚ × ℚ :=
  ((x : ℚ) / (w : ℚ), (y : ℚ) / (h : ℚ))

/-- A vector draw command issued to a PDF page by `_save_pdf_vector`:
a filled triangle, a stroked circle, or a text insertion. -/
inductive PdfCmd where
  | poly (p1 p2 p3 : ℝ × ℝ)
  | circle (center : ℝ × ℝ) (radius : ℝ) (width : ℝ)
  | text (pos : ℝ × ℝ) (s : String) (fontsize : ℤ)

/-- A PDF page: its rectangle's dimensions and the shapes drawn on it. -/
structure PdfPage where
  width : ℝ
  height : ℝ
  shapes : List PdfCmd

/-- The commands `_save_pdf_vector` appends to page 0 for one marker:
filled red triangle, white circle with red border of width `max 1 (r/7)`,
and the number text centred via the font's measured text length
(`text_len`, supplied by the external font metric `textLen`). -/
noncomputable def pdfMarkerCmds (textLen : String → ℤ → ℝ) (page_w page_h : ℝ)
    (base_size : ℕ) (m : Marker) : List PdfCmd :=
  let r : ℝ := (base_size : ℝ)
  let g := pdfMarkerGeom (m.rx : ℝ) (m.ry : ℝ) (m.angle : ℝ) page_w page_h r
  let font_size : ℤ := pyInt (r * 0.9)
  let text_val := toString m.num
  let text_len := textLen text_val font_size
  let text_x := g.cx - text_len / 2
  let text_y := g.cy + (font_size : ℝ) * 0.35
  [ PdfCmd.poly g.tip g.base1 g.base2,
    PdfCmd.circle (g.cx, g.cy) r (max 1 (r / 7)),
    PdfCmd.text (text_x, text_y) text_val font_size ]

/-- Drawing every marker, in order, onto one page. -/
noncomputable def drawPdfMarkers (textLen : String → ℤ → ℝ) (pg : PdfPage)
    (markers : List Marker) (base_size : ℕ) : PdfPage :=
  markers.foldl
    (fun p m => { p with shapes := p.shapes ++ pdfMarkerCmds textLen pg.width pg.height base_size m })
    pg

/-- `MainWindow._save_pdf_vector`: reopen the document, draw all markers on
page 0 (`doc[0]`), and save every page.  Fails (the `doc[0]` lookup raises)
when the document has no pages. -/
noncomputable def savePdfVector (textLen : String → ℤ → ℝ) (doc : List PdfPage)
    (markers : List Marker) (base_size : ℕ) : Option (List PdfPage) :=
  match doc with
  | [] => none
  | p0 :: rest => some (drawPdfMarkers textLen p0 markers base_size :: rest)

/-- A raster image reduced to the data the export pipeline branches on:
its dimensions.  Pixel content never influences control flow or sizes. -/
structure RasterImage where
  width : ℕ
  height : ℕ
deriving DecidableEq

/-- `PIL.Image.new`: a fresh (transparent) image of the given size. -/
def imageNew (w h : ℕ) : RasterImage :=
  ⟨w, h⟩

/-- `PIL.Image.resize`: the result has exactly the requested size. -/
def imageResize (_img : RasterImage) (w h : ℕ) : RasterImage :=
  ⟨w, h⟩

/-- `PIL.Image.alpha_composite`: requires both images to have the same
size, raising `ValueError` otherwise; the result keeps that size. -/
def alphaComposite (base overlay : RasterImage) : Except String RasterImage :=
  if base = overlay then Except.ok base else Except.error "images do not match"

/-- A font as the raster path sees it: either a truetype font loaded from
a path at a size, or PIL's built-in default font. -/
inductive Font where
  | truetype (path : String) (size : ℤ)
  | dflt
deriving DecidableEq

/-- The candidate font paths tried by `_save_image_raster`, in order. -/
def fontCandidates : List String :=
  [ "arial.ttf", "Arial.ttf",
    "/Library/Fonts/Arial.ttf",
    "/usr/share/fonts/truetype/dejavu/DejaVuSans-Bold.ttf",
    "C:\\Windows\\Fonts\\arial.ttf" ]

/-- The font-loading loop: try each candidate path in order (`env p` tells
whether loading path `p` succeeds in the host environment; a failure is the
caught `OSError`), keep the first success, and fall back to the default
font when every candidate fails. -/
def loadFont (env : String → Bool) (candidates : List String) (size : ℤ) : Font :=
  (candidates.findSome? (fun p => if env p then some (Font.truetype p size) else none)).getD
    Font.dflt

/-- A raster draw command issued by `_pil_draw_balloon`: filled polygon,
outlined ellipse given by its bounding box, or stroked text. -/
inductive RasterCmd where
  | polygon (p1 p2 p3 : ℝ × ℝ)
  | ellipse (x0 y0 x1 y1 : ℝ) (width : ℤ)
  | text (pos : ℝ × ℝ) (s : String) (font : Font) (stroke : ℤ)

/-- The commands `_pil_draw_balloon` draws for one marker, using the
truncated-tail geometry.  `textSize` models `draw.textbbox`'s measured
`(width, height)` of the rendered string. -/
noncomputable def pilBalloonCmds (textSize : String → Font → ℤ → ℝ × ℝ)
    (m : Marker) (w h : ℕ) (r : ℤ) (font : Font) : List RasterCmd :=
  let g := pilDrawBalloonGeom (m.rx : ℝ) (m.ry : ℝ) (m.angle : ℝ) (w : ℝ) (h : ℝ) (r : ℝ)
  let circle_thickness : ℤ := max 2 (pyInt ((r : ℝ) / 8.0))
  let text_stroke : ℤ := max 1 (pyInt ((r : ℝ) / 30.0))
  let text_str := toString m.num
  let ts := textSize text_str font text_stroke
  let tw := ts.1
  let th := ts.2
  let text_pos := (g.cx - tw / 2, g.cy - th / 2 - th * 0.1)
  [ RasterCmd.polygon g.tip g.base1 g.base2,
    RasterCmd.ellipse (g.cx - (r : ℝ)) (g.cy - (r : ℝ)) (g.cx + (r : ℝ)) (g.cy + (r : ℝ))
      circle_thickness,
    RasterCmd.text text_pos text_str font text_stroke ]

/-- The supersampling factor of `_save_image_raster`. -/
def SUPERSAMPLE : ℕ := 4

/-- A trace of one raster export: the supersampled overlay, the draw
commands issued on it, the font that was used, and the final composited
image. -/
structure RasterExport where
  overlay : RasterImage
  overlayCmds : List RasterCmd
  fontUsed : Font
  result : RasterImage

/-- `MainWindow._save_image_raster`: build a transparent overlay at 4x the
source size, compute the scaled radius and font size, load a font (with
default-font fallback), draw every marker on the overlay, resize the
overlay back to the source size, and alpha-composite it onto the source. -/
noncomputable def saveImageRaster (env : String → Bool)
    (textSize : String → Font → ℤ → ℝ × ℝ) (src : RasterImage)
    (markers : List Marker) (spin : ℕ) : Except String RasterExport :=
  let orig_w := src.width
  let orig_h := src.height
  let super_w := orig_w * SUPERSAMPLE
  let super_h := orig_h * SUPERSAMPLE
  let overlay := imageNew super_w super_h
  let scale_factor : ℚ := max 1 ((orig_w : ℚ) / 1000)
  let final_r : ℤ := pyIntQ ((spin : ℚ) * scale_factor * (SUPERSAMPLE : ℚ))
  let font_size : ℤ := pyIntQ ((final_r : ℚ) * (9/10))
  let font := loadFont env fontCandidates font_size
  let cmds := markers.foldl (fun acc m => acc ++ pilBalloonCmds textSize m super_w super_h final_r font) []
  let overlay_smooth := imageResize overlay orig_w orig_h
  match alphaComposite src overlay_smooth with
  | Except.error e => Except.error e
  | Except.ok final => Except.ok ⟨overlay, cmds, font, final⟩

/-- Python truthiness of the optional source path: `None` and the empty
string are falsy. -/
def strFalsy : Option String → Bool
  | none => true
  | some s => s.isEmpty

/-- Outcome of one `save_file` invocation: the state afterwards, whether a
warning dialog was shown, and the path written (if any). -/
structure SaveAttempt where
  state : AppState
  warned : Bool
  written : Option String
deriving DecidableEq

/-- `MainWindow.save_file`: warn and bail out when no source is open or no
markers exist; otherwise write to the path chosen in the dialog (`none`
models a cancelled dialog). -/
def save_file (s : AppState) (chosen : Option String) : SaveAttempt :=
  if strFalsy s.sourcePath || s.markers.isEmpty then
    { state := s, warned := true, written := none }
  else
    match chosen with
    | none => { state := s, warned := false, written := none }
    | some out => { state := s, warned := false, written := some out }

lemma pyInt_21_mul : pyInt ((21 : ℝ) * 1.2) = 25 := by
  rw [pyInt, if_pos (by norm_num)]
  rw [Int.floor_eq_iff]
  constructor <;> norm_num

lemma pyInt_20_mul : pyInt ((20 : ℝ) * 1.2) = 24 := by
  rw [pyInt, if_pos (by norm_num)]
  rw [Int.floor_eq_iff]
  constructor <;> norm_num

lemma radians_zero : radians 0 = 0 := by
  simp [radians]

/-- C1 (counterexample): at tip `(0, 0)`, angle `0`, radius `21`, the
canvas path `_draw_single_balloon` does not place the circle centre at
distance `1.2 * r + r` from the tip: `int(21 * 1.2) = 25`, giving
`cx = -46`, while the claimed formula gives `-46.2`. -/
theorem C1_claim_counterexample :
    (drawSingleBalloonGeom 0 0 0 21).cx ≠ 0 - Real.cos (radians 0) * (1.2 * 21 + 21) := by
  simp only [drawSingleBalloonGeom, radians_zero, Real.cos_zero, Real.sin_zero, pyInt_21_mul]
  norm_num

/-- C1 (amended): for every tip point, angle and radius, the PDF export
geometry places the circle centre at `(tx - cos a * (1.2 r + r),
ty - sin a * (1.2 r + r))` and the tail triangle at the tip and
`centre ± (-sin a, cos a) * (0.5 r)`, exactly as claimed; the interactive
canvas geometry uses the same formulas with the tail length `1.2 r`
truncated to `int(1.2 r)`. -/
theorem C1_balloon_geometry (tx ty a r : ℝ) :
    (pdfBalloonGeom tx ty a r).cx = tx - Real.cos (radians a) * (1.2 * r + r)
    ∧ (pdfBalloonGeom tx ty a r).cy = ty - Real.sin (radians a) * (1.2 * r + r)
    ∧ (pdfBalloonGeom tx ty a r).tip = (tx, ty)
    ∧ (pdfBalloonGeom tx ty a r).base1 =
        ((pdfBalloonGeom tx ty a r).cx + (-Real.sin (radians a)) * (0.5 * r),
         (pdfBalloonGeom tx ty a r).cy + Real.cos (radians a) * (0.5 * r))
    ∧ (pdfBalloonGeom tx ty a r).base2 =
        ((pdfBalloonGeom tx ty a r).cx - (-Real.sin (radians a)) * (0.5 * r),
         (pdfBalloonGeom tx ty a r).cy - Real.cos (radians a) * (0.5 * r))
    ∧ (drawSingleBalloonGeom tx ty a r).cx
        = tx - Real.cos (radians a) * ((pyInt (r * 1.2) : ℝ) + r)
    ∧ (drawSingleBalloonGeom tx ty a r).cy
        = ty - Real.sin (radians a) * ((pyInt (r * 1.2) : ℝ) + r)
    ∧ (drawSingleBalloonGeom tx ty a r).tip = (tx, ty)
    ∧ (drawSingleBalloonGeom tx ty a r).base1 =
        ((drawSingleBalloonGeom tx ty a r).cx + (-Real.sin (radians a)) * (0.5 * r),
         (drawSingleBalloonGeom tx ty a r).cy + Real.cos (radians a) * (0.5 * r))
    ∧ (drawSingleBalloonGeom tx ty a r).base2 =
        ((drawSingleBalloonGeom tx ty a r).cx - (-Real.sin (radians a)) * (0.5 * r),
         (drawSingleBalloonGeom tx ty a r).cy - Real.cos (radians a) * (0.5 * r)) := by
  simp only [pdfBalloonGeom, drawSingleBalloonGeom]
  refine ⟨by ring, by ring, by trivial, ?_, ?_, by ring, by ring, by trivial, ?_, ?_⟩ <;>
    · simp only [Prod.mk.injEq]
      exact ⟨by ring, by ring⟩

/-- C2 (counterexample): with marker `(0, 0, 1, 0)`, canvas `100 × 100`
and radius `21`, the PDF vector path and the raster path compute
different circle centres (`cx = -46.2` versus `-46`), because the raster
path truncates the tail length `int(21 * 1.2) = 25`. -/
theorem C2_claim_counterexample :
    pdfMarkerGeom 0 0 0 100 100 21 ≠ pilDrawBalloonGeom 0 0 0 100 100 21 := by
  intro hEq
  have hcx := congrArg BalloonGeom.cx hEq
  simp only [pdfMarkerGeom, pdfBalloonGeom, pilDrawBalloonGeom, radians_zero,
    Real.cos_zero, Real.sin_zero, pyInt_21_mul] at hcx
  norm_num at hcx

/-- C2 (amended): from the same marker, canvas size and radius, the PDF
vector path and the raster path always place the tip at the same point
`(rx * w, ry * h)`, and whenever `int(1.2 * r) = 1.2 * r` (for example
when `r` is a multiple of 5) they compute identical circle centres and
tail-triangle vertices; otherwise the raster path uses the truncated tail
length `int(1.2 * r)` where the PDF path uses `1.2 * r`. -/
theorem C2_export_paths_agree (rx ry ang w h r : ℝ) :
    (pdfMarkerGeom rx ry ang w h r).tip = (pilDrawBalloonGeom rx ry ang w h r).tip
    ∧ ((pyInt (r * 1.2) : ℝ) = r * 1.2 →
        pdfMarkerGeom rx ry ang w h r = pilDrawBalloonGeom rx ry ang w h r) := by
  constructor
  · simp [pdfMarkerGeom, pdfBalloonGeom, pilDrawBalloonGeom]
  · intro hint
    simp [pdfMarkerGeom, pdfBalloonGeom, pilDrawBalloonGeom, hint]

/-- C2 (witness): at radius `20`, `int(20 * 1.2) = 24 = 20 * 1.2`, and the
two export paths agree exactly. -/
theorem C2_export_paths_agree_witness :
    (pyInt ((20 : ℝ) * 1.2) : ℝ) = (20 : ℝ) * 1.2
    ∧ pdfMarkerGeom 0 0 0 100 100 20 = pilDrawBalloonGeom 0 0 0 100 100 20 := by
  have h : (pyInt ((20 : ℝ) * 1.2) : ℝ) = (20 : ℝ) * 1.2 := by
    rw [pyInt_20_mul]; norm_num
  exact ⟨h, (C2_export_paths_agree 0 0 0 100 100 20).2 h⟩

/-- The marker list with the redo stack replayed on top (the redo stack is
popped from its end, so its reverse is the order in which redo would
restore the markers). -/
def combined (s : AppState) : List Marker :=
  s.markers ++ s.undone.reverse

/-- Invariant: the markers together with the replayed redo stack are
numbered consecutively starting from 1. -/
def Numbered (s : AppState) : Prop :=
  (combined s).map Marker.num = List.range' 1 (combined s).length

lemma markers_map_num (s : AppState) (h : Numbered s) :
    s.markers.map Marker.num = List.range' 1 s.markers.length := by
  unfold Numbered combined at h
  rw [List.map_append, List.length_append, List.length_reverse] at h
  rw [Nat.add_comm s.markers.length s.undone.length] at h
  rw [← List.range'_append_1 1 s.markers.length s.undone.length] at h
  exact (List.append_inj h (by simp)).1

lemma combined_undo (s : AppState) : combined (undo_marker s) = combined s := by
  unfold undo_marker
  cases hm : s.markers.getLast? with
  | none => rfl
  | some a =>
    obtain ⟨ys, hys⟩ := List.getLast?_eq_some_iff.mp hm
    unfold combined
    simp only [hys, List.dropLast_concat, List.reverse_append, List.reverse_cons,
      List.reverse_nil, List.nil_append, List.singleton_append, List.append_assoc]

lemma combined_redo (s : AppState) : combined (redo_marker s) = combined s := by
  unfold redo_marker
  cases hm : s.undone.getLast? with
  | none => rfl
  | some a =>
    obtain ⟨ys, hys⟩ := List.getLast?_eq_some_iff.mp hm
    unfold combined
    simp only [hys, List.dropLast_concat, List.reverse_append, List.reverse_cons,
      List.reverse_nil, List.nil_append, List.singleton_append, List.append_assoc]

lemma numbered_step (s : AppState) (op : Op) (h : Numbered s) : Numbered (step s op) := by
  cases op with
  | add rx ry =>
    have hmk := markers_map_num s h
    unfold Numbered combined step add_marker
    simp only [List.reverse_nil, List.append_nil, List.map_append, List.length_append,
      List.map_cons, List.map_nil, List.length_cons, List.length_nil]
    rw [hmk]
    rw [List.range'_1_concat]
    simp [Nat.add_comm]
  | undo =>
    show Numbered (undo_marker s)
    unfold Numbered
    rw [combined_undo]
    exact h
  | redo =>
    show Numbered (redo_marker s)
    unfold Numbered
    rw [combined_redo]
    exact h
  | clear =>
    show Numbered (clear_all_markers s)
    simp [Numbered, combined, clear_all_markers]
  | zoomIn => exact h
  | zoomOut =>
    show Numbered (zoom_out s)
    unfold zoom_out
    split
    · exact h
    · exact h
  | updateView => exact h
  | setSize n => exact h
  | setRotation a => exact h

lemma numbered_initState : Numbered initState := by
  simp [Numbered, combined, initState]

lemma numbered_runOps (ops : List Op) : Numbered (runOps ops) := by
  unfold runOps
  have hgen : ∀ (l : List Op) (s : AppState), Numbered s → Numbered (l.foldl step s) := by
    intro l
    induction l with
    | nil => intro s hs; exact hs
    | cons op rest ih => intro s hs; exact ih _ (numbered_step s op hs)
  exact hgen ops initState numbered_initState

/-- C3: in every state reachable from the empty marker list by add, undo,
redo and clear operations, the i-th marker (0-based index `i`) carries
number `i + 1`, and a marker added when the list has `n` entries is
appended last carrying number `n + 1`. -/
theorem C3_consecutive_numbering (ops : List Op) :
    (∀ (i : ℕ) (hi : i < (runOps ops).markers.length),
        ((runOps ops).markers.get ⟨i, hi⟩).num = i + 1)
    ∧ (∀ (s : AppState) (rx ry : ℚ),
        (step s (Op.add rx ry)).markers.getLast?
          = some ⟨rx, ry, s.markers.length + 1, s.currentRotation⟩) := by
  constructor
  · intro i hi
    have h := markers_map_num (runOps ops) (numbered_runOps ops)
    have hchain : ((runOps ops).markers.map Marker.num)[i]?
        = (List.range' 1 (runOps ops).markers.length)[i]? := by rw [h]
    rw [List.getElem?_range' 1 1 hi] at hchain
    rw [List.getElem?_map, List.getElem?_eq_getElem hi] at hchain
    simp only [Option.map_some', Option.some.injEq] at hchain
    simp only [List.get_eq_getElem]
    omega
  · intro s rx ry
    show (add_marker s rx ry).markers.getLast? = _
    unfold add_marker
    simp

/-- C3 (witness): after adding two markers, undoing and redoing, the
second marker carries number 2. -/
theorem C3_consecutive_numbering_witness :
    1 < (runOps [Op.add 0 0, Op.add (1/2) (1/2), Op.undo, Op.redo]).markers.length
    ∧ ((runOps [Op.add 0 0, Op.add (1/2) (1/2), Op.undo, Op.redo]).markers.get
        ⟨1, by decide⟩).num = 1 + 1 :=
  ⟨by decide,
   (C3_consecutive_numbering [Op.add 0 0, Op.add (1/2) (1/2), Op.undo, Op.redo]).1 1 (by decide)⟩

/-- C4: undo removes exactly the most recently appended marker (moving it
onto the redo stack), redo immediately after such an undo restores the
marker list exactly, and undo on an empty marker list as well as redo with
an empty redo stack change nothing. -/
theorem C4_undo_redo (s : AppState) :
    (∀ (l : List Marker) (m : Marker), s.markers = l ++ [m] →
        (undo_marker s).markers = l
        ∧ (undo_marker s).undone = s.undone ++ [m]
        ∧ (redo_marker (undo_marker s)).markers = s.markers)
    ∧ (s.markers = [] → undo_marker s = s)
    ∧ (s.undone = [] → redo_marker s = s) := by
  refine ⟨?_, ?_, ?_⟩
  · intro l m hlm
    have hundo : undo_marker s
        = { s with markers := l, undone := s.undone ++ [m] } := by
      unfold undo_marker
      rw [hlm, List.getLast?_concat]
      simp [List.dropLast_concat]
    refine ⟨by rw [hundo], by rw [hundo], ?_⟩
    rw [hundo]
    unfold redo_marker
    simp only [List.getLast?_concat, List.dropLast_concat]
    rw [hlm]
  · intro hnil
    unfold undo_marker
    rw [hnil]
    rfl
  · intro hnil
    unfold redo_marker
    rw [hnil]
    rfl

/-- C4 (witness): on a one-marker state, undo empties the list and moves
the marker to the redo stack, and redo restores it. -/
theorem C4_undo_redo_witness :
    ({ initState with markers := [⟨0, 0, 1, 0⟩] } : AppState).markers = [] ++ [⟨0, 0, 1, 0⟩]
    ∧ (undo_marker { initState with markers := [⟨0, 0, 1, 0⟩] }).markers = []
    ∧ (undo_marker { initState with markers := [⟨0, 0, 1, 0⟩] }).undone
        = ({ initState with markers := [⟨0, 0, 1, 0⟩] } : AppState).undone ++ [⟨0, 0, 1, 0⟩]
    ∧ (redo_marker (undo_marker { initState with markers := [⟨0, 0, 1, 0⟩] })).markers
        = ({ initState with markers := [⟨0, 0, 1, 0⟩] } : AppState).markers := by
  have h := (C4_undo_redo { initState with markers := [⟨0, 0, 1, 0⟩] }).1 [] ⟨0, 0, 1, 0⟩ (by decide)
  exact ⟨by decide, h.1, h.2.1, h.2.2⟩

/-- C6: any sequence of zoom-in, zoom-out, view-refresh and marker-size
operations leaves the stored marker list (positions, numbers and angles)
unchanged. -/
theorem C6_zoom_preserves_markers (s : AppState) (ops : List Op)
    (h : ∀ op ∈ ops, isViewOp op = true) :
    (ops.foldl step s).markers = s.markers := by
  induction ops generalizing s with
  | nil => rfl
  | cons op rest ih =>
    have hop : isViewOp op = true := h op (by simp)
    have hrest : ∀ o ∈ rest, isViewOp o = true := fun o ho => h o (by simp [ho])
    have hstep : (step s op).markers = s.markers := by
      cases op with
      | zoomIn => rfl
      | zoomOut =>
        show (zoom_out s).markers = s.markers
        unfold zoom_out
        split <;> rfl
      | updateView => rfl
      | setSize n => rfl
      | add rx ry => simp [isViewOp] at hop
      | undo => simp [isViewOp] at hop
      | redo => simp [isViewOp] at hop
      | clear => simp [isViewOp] at hop
      | setRotation a => simp [isViewOp] at hop
    rw [List.foldl_cons, ih (step s op) hrest, hstep]

/-- C6 (witness): zooming in, changing the marker size, refreshing and
zooming out leaves a one-marker list untouched. -/
theorem C6_zoom_preserves_markers_witness :
    (∀ op ∈ [Op.zoomIn, Op.setSize 30, Op.updateView, Op.zoomOut], isViewOp op = true)
    ∧ ([Op.zoomIn, Op.setSize 30, Op.updateView, Op.zoomOut].foldl step
        { initState with markers := [⟨0, 0, 1, 0⟩] }).markers
      = ({ initState with markers := [⟨0, 0, 1, 0⟩] } : AppState).markers :=
  ⟨by decide,
   C6_zoom_preserves_markers { initState with markers := [⟨0, 0, 1, 0⟩] }
     [Op.zoomIn, Op.setSize 30, Op.updateView, Op.zoomOut] (by decide)⟩

/-- C5: a click at image-relative pixel `(x, y)` on a displayed image of
size `w × h` is accepted exactly when `0 ≤ x < w` and `0 ≤ y < h`, and an
accepted click is stored as the fractions `(x / w, y / h)`, each lying in
`[0, 1)`. -/
theorem C5_click_acceptance (x y w h : ℤ) :
    (mousePressAccept x y w h = some (x, y) ↔ 0 ≤ x ∧ x < w ∧ 0 ≤ y ∧ y < h)
    ∧ (mousePressAccept x y w h = none ↔ ¬(0 ≤ x ∧ x < w ∧ 0 ≤ y ∧ y < h))
    ∧ (0 ≤ x ∧ x < w → 0 ≤ y ∧ y < h →
        0 ≤ (relPos x y w h).1 ∧ (relPos x y w h).1 < 1
        ∧ 0 ≤ (relPos x y w h).2 ∧ (relPos x y w h).2 < 1) := by
  refine ⟨?_, ?_, ?_⟩
  · unfold mousePressAccept
    split
    · simp_all
    · simp_all
  · unfold mousePressAccept
    split
    · simp_all
    · simp_all
  · rintro ⟨hx0, hxw⟩ ⟨hy0, hyh⟩
    have hw : (0 : ℚ) < (w : ℚ) := by exact_mod_cast lt_of_le_of_lt hx0 hxw
    have hh : (0 : ℚ) < (h : ℚ) := by exact_mod_cast lt_of_le_of_lt hy0 hyh
    unfold relPos
    refine ⟨?_, ?_, ?_, ?_⟩
    · exact div_nonneg (by exact_mod_cast hx0) (le_of_lt hw)
    · rw [div_lt_one hw]
      exact_mod_cast hxw
    · exact div_nonneg (by exact_mod_cast hy0) (le_of_lt hh)
    · rw [div_lt_one hh]
      exact_mod_cast hyh

/-- C5 (witness): the click `(2, 3)` on a `10 × 10` image is accepted and
stored as `(1/5, 3/10)`, inside `[0, 1)`. -/
theorem C5_click_acceptance_witness :
    mousePressAccept 2 3 10 10 = some (2, 3)
    ∧ (0 ≤ (relPos 2 3 10 10).1 ∧ (relPos 2 3 10 10).1 < 1
        ∧ 0 ≤ (relPos 2 3 10 10).2 ∧ (relPos 2 3 10 10).2 < 1) :=
  ⟨(C5_click_acceptance 2 3 10 10).1.mpr (by decide),
   (C5_click_acceptance 2 3 10 10).2.2 (by decide) (by decide)⟩

/-- C10: invoking save with no source file open (path `None` or empty) or
with an empty marker list shows the warning, writes nothing, and leaves
the entire application state unchanged. -/
theorem C10_save_guard (s : AppState) (chosen : Option String)
    (h : s.sourcePath = none ∨ s.sourcePath = some "" ∨ s.markers = []) :
    save_file s chosen = { state := s, warned := true, written := none } := by
  have hguard : (strFalsy s.sourcePath || s.markers.isEmpty) = true := by
    rcases h with h1 | h2 | h3
    · rw [h1]; rfl
    · rw [h2]; rfl
    · rw [h3]; simp
  unfold save_file
  rw [if_pos hguard]

/-- C10 (witness): saving with no file open warns and changes nothing. -/
theorem C10_save_guard_witness :
    (initState.sourcePath = none ∨ initState.sourcePath = some "" ∨ initState.markers = [])
    ∧ save_file initState (some "out.pdf")
        = { state := initState, warned := true, written := none } :=
  ⟨Or.inl rfl, C10_save_guard initState (some "out.pdf") (Or.inl rfl)⟩

lemma saveImageRaster_parts (env : String → Bool)
    (textSize : String → Font → ℤ → ℝ × ℝ) (src : RasterImage)
    (markers : List Marker) (spin : ℕ) :
    ∃ e, saveImageRaster env textSize src markers spin = Except.ok e
      ∧ e.overlay = imageNew (src.width * SUPERSAMPLE) (src.height * SUPERSAMPLE)
      ∧ e.result = src
      ∧ e.fontUsed = loadFont env fontCandidates
          (pyIntQ ((pyIntQ ((spin : ℚ) * max 1 ((src.width : ℚ) / 1000) * (SUPERSAMPLE : ℚ)) : ℚ)
            * (9/10))) := by
  obtain ⟨w, h⟩ := src
  have hok : saveImageRaster env textSize ⟨w, h⟩ markers spin = Except.ok
      ⟨imageNew (w * SUPERSAMPLE) (h * SUPERSAMPLE),
       markers.foldl (fun acc m => acc ++ pilBalloonCmds textSize m (w * SUPERSAMPLE)
         (h * SUPERSAMPLE)
         (pyIntQ ((spin : ℚ) * max 1 ((w : ℚ) / 1000) * (SUPERSAMPLE : ℚ)))
         (loadFont env fontCandidates
           (pyIntQ ((pyIntQ ((spin : ℚ) * max 1 ((w : ℚ) / 1000) * (SUPERSAMPLE : ℚ)) : ℚ)
             * (9/10))))) [],
       loadFont env fontCandidates
         (pyIntQ ((pyIntQ ((spin : ℚ) * max 1 ((w : ℚ) / 1000) * (SUPERSAMPLE : ℚ)) : ℚ)
           * (9/10))),
       ⟨w, h⟩⟩ := by
    unfold saveImageRaster
    simp [alphaComposite, imageResize, imageNew]
  exact ⟨_, hok, rfl, rfl, rfl⟩

lemma loadFont_eq_dflt_iff (env : String → Bool) (cs : List String) (size : ℤ) :
    loadFont env cs size = Font.dflt ↔ ∀ p ∈ cs, env p = false := by
  induction cs with
  | nil => simp [loadFont]
  | cons c rest ih =>
    unfold loadFont
    by_cases hc : env c
    · have hstep : List.findSome?
          (fun p => if env p = true then some (Font.truetype p size) else none) (c :: rest)
          = some (Font.truetype c size) := by
        rw [List.findSome?_cons]
        simp [hc]
      rw [hstep]
      simp [hc]
    · have hstep : List.findSome?
          (fun p => if env p = true then some (Font.truetype p size) else none) (c :: rest)
          = List.findSome?
            (fun p => if env p = true then some (Font.truetype p size) else none) rest := by
        rw [List.findSome?_cons]
        simp [hc]
      unfold loadFont at ih
      rw [hstep, ih]
      constructor
      · intro hall p hp
        rcases List.mem_cons.mp hp with hp | hp
        · subst hp
          simpa using hc
        · exact hall p hp
      · intro hall p hp
        exact hall p (List.mem_cons_of_mem c hp)

/-- C7: raster export builds its overlay at exactly 4 times the source
width and height, the pipeline always completes (the overlay is resized
back to the source dimensions before compositing), and the exported image
has exactly the source's width and height. -/
theorem C7_raster_supersampling (env : String → Bool)
    (textSize : String → Font → ℤ → ℝ × ℝ) (src : RasterImage)
    (markers : List Marker) (spin : ℕ) :
    ∃ e, saveImageRaster env textSize src markers spin = Except.ok e
      ∧ e.overlay.width = 4 * src.width
      ∧ e.overlay.height = 4 * src.height
      ∧ e.result.width = src.width
      ∧ e.result.height = src.height := by
  obtain ⟨e, he, hov, hres, _⟩ := saveImageRaster_parts env textSize src markers spin
  refine ⟨e, he, ?_, ?_, ?_, ?_⟩
  · rw [hov]; show src.width * SUPERSAMPLE = 4 * src.width; unfold SUPERSAMPLE; omega
  · rw [hov]; show src.height * SUPERSAMPLE = 4 * src.height; unfold SUPERSAMPLE; omega
  · rw [hres]
  · rw [hres]

/-- C8: the raster export never aborts on font loading, and it uses PIL's
default font exactly when every candidate truetype path fails to load. -/
theorem C8_font_fallback (env : String → Bool)
    (textSize : String → Font → ℤ → ℝ × ℝ) (src : RasterImage)
    (markers : List Marker) (spin : ℕ) :
    (∃ e, saveImageRaster env textSize src markers spin = Except.ok e)
    ∧ ∀ e, saveImageRaster env textSize src markers spin = Except.ok e →
        (e.fontUsed = Font.dflt ↔ ∀ p ∈ fontCandidates, env p = false) := by
  obtain ⟨e, he, _, _, hfont⟩ := saveImageRaster_parts env textSize src markers spin
  refine ⟨⟨e, he⟩, ?_⟩
  intro e' he'
  have heq : e' = e := by
    rw [he] at he'
    exact (Except.ok.inj he').symm
  subst heq
  rw [hfont]
  exact loadFont_eq_dflt_iff env fontCandidates _

/-- C9: PDF export draws the markers only on page 0; for a multi-page
document every later page is carried to the output unchanged (and the
export succeeds whenever the document has at least one page). -/
theorem C9_pdf_pages_unchanged (textLen : String → ℤ → ℝ) (doc : List PdfPage)
    (markers : List Marker) (base_size : ℕ) (i : ℕ)
    (hdoc : doc ≠ []) (h0 : 0 < i) :
    ∃ out, savePdfVector textLen doc markers base_size = some out
      ∧ out.length = doc.length
      ∧ out[i]? = doc[i]? := by
  cases doc with
  | nil => exact absurd rfl hdoc
  | cons p0 rest =>
    refine ⟨drawPdfMarkers textLen p0 markers base_size :: rest, rfl, by simp, ?_⟩
    cases i with
    | zero => omega
    | succ j => simp

/-- C9 (witness): on a concrete two-page document, the export succeeds and
page 1 is unchanged. -/
theorem C9_pdf_pages_unchanged_witness :
    (([⟨100, 100, []⟩, ⟨50, 60, []⟩] : List PdfPage) ≠ [] ∧ 0 < 1)
    ∧ ∃ out, savePdfVector (fun _ _ => 0) [⟨100, 100, []⟩, ⟨50, 60, []⟩] [] 20 = some out
        ∧ out.length = ([⟨100, 100, []⟩, ⟨50, 60, []⟩] : List PdfPage).length
        ∧ out[1]? = ([⟨100, 100, []⟩, ⟨50, 60, []⟩] : List PdfPage)[1]? :=
  ⟨⟨by simp, by norm_num⟩,
   C9_pdf_pages_unchanged (fun _ _ => 0) [⟨100, 100, []⟩, ⟨50, 60, []⟩] [] 20 1
     (by simp) (by norm_num)⟩

end Ballooning
